import Mathlib

/-!
Verification development for the ticker-analysis pipeline
(Electron app + Express backend).

The definitions below are a shallow embedding of the JavaScript source:

* `src/server.js` — news fetching (`fetchYahooNews`), summaries
  (`generateFastSummary`, `summarizeArticlesWithAI`), the result cache
  (`getCachedResult` / `setCachedResult`) and the `/api/analyze` handler;
* `src/modules/ticker-analyzer.js` — `TickerAnalyzer` (validation and the
  single-flight analysis queue);
* `src/main.js` — the clipboard watcher (`startClipboardMonitoring`);
* `src/modules/sentiment-analyzer.js` — the sentiment client
  (`train`, `getMetrics`, `analyzeArticles`).

Machine timestamps (`Date.now()`, `Date` objects) are modelled as `Int`
milliseconds.  External I/O (HTTP requests, `child_process` executions)
is modelled by explicit outcome parameters (oracles): every network or
subprocess call site in the JS code takes its outcome from such a
parameter, with `Except` distinguishing a thrown/rejected call from a
value that was returned.
-/

/-! ## Character and string helpers (ASCII semantics of the JS regexes) -/

/-- `A`–`Z` test, the character class `[A-Z]`. -/
def isUpperAZ (c : Char) : Bool := 'A' ≤ c && c ≤ 'Z'

/-- `0`–`9` test, the character class `[0-9]`. -/
def isDigitAZ (c : Char) : Bool := '0' ≤ c && c ≤ '9'

/-- The character class `[A-Z0-9.]` used by the `/api/analyze` cleaning
regex `replace(/[^A-Z0-9.]/g, '')`. -/
def isTickerChar (c : Char) : Bool := isUpperAZ c || isDigitAZ c || c = '.'

/-- JS whitespace for `String.prototype.trim` (the code only ever meets
ASCII whitespace). -/
def isWS (c : Char) : Bool := c = ' ' || c = '\t' || c = '\n' || c = '\r'

/-- `text.trim()` — strip whitespace from both ends. -/
def jsTrim (s : String) : String :=
  String.mk (((s.data.dropWhile isWS).reverse.dropWhile isWS).reverse)

/-- ASCII upper-casing of one character. -/
def toUpperChar (c : Char) : Char :=
  if 'a' ≤ c && c ≤ 'z' then Char.ofNat (c.toNat - 32) else c

/-- `text.toUpperCase()` (ASCII semantics). -/
def jsToUpper (s : String) : String := String.mk (s.data.map toUpperChar)

/-- Does `pat` occur as a prefix of `s` (char lists)? -/
def matchesAt : List Char → List Char → Bool
  | [], _ => true
  | _ :: _, [] => false
  | p :: ps, c :: cs => (p = c) && matchesAt ps cs

/-- Does `pat` occur as a contiguous substring of `s` (char lists)?
Models JavaScript `String.prototype.includes`. -/
def hasSubList (pat : List Char) : List Char → Bool
  | [] => matchesAt pat []
  | c :: rest => matchesAt pat (c :: rest) || hasSubList pat rest

/-- JavaScript `s.includes(pat)`. -/
def strIncludes (s pat : String) : Bool := hasSubList pat.data s.data

/-! ## Ticker validation — `TickerAnalyzer.isValidTicker`
(`src/modules/ticker-analyzer.js` lines 116–126) -/

/-- The anchored regex `^[A-Z0-9]{1,5}(\.[A-Z])?$`.  Because the core
class `[A-Z0-9]` is disjoint from `.`, the greedy `{1,5}` match is the
maximal run of core characters. -/
def tickerPatternTest (s : String) : Bool :=
  let l := s.data
  let core := l.takeWhile (fun c => isUpperAZ c || isDigitAZ c)
  let rest := l.drop core.length
  (decide (1 ≤ core.length) && decide (core.length ≤ 5)) &&
  (match rest with
   | [] => true
   | ['.', a] => isUpperAZ a
   | _ => false)

/-- The anchored regex `^[A-Z]{1,5}$` (the redundant `simplePattern`). -/
def simplePatternTest (s : String) : Bool :=
  let l := s.data
  (decide (1 ≤ l.length) && decide (l.length ≤ 5)) && l.all isUpperAZ

/-- `TickerAnalyzer.isValidTicker(text)`: falsy input is rejected, then
the trimmed upper-cased text is tested against the two patterns. -/
def isValidTicker (text : String) : Bool :=
  if text = "" then false
  else
    let cleaned := jsToUpper (jsTrim text)
    tickerPatternTest cleaned || simplePatternTest cleaned

/-! ## Articles and analysis results (the server-side data model) -/

/-- An article as assembled by the server (the `dateObj`-stripped shape
that the intended code returns and that downstream consumers use). -/
structure Article where
  title : String
  link : String
  date : String
  description : String
deriving DecidableEq, Repr

/-- Classifier metrics `{accuracy, precision, recall, f1}`; the JS floats
are modelled as abstract integer-valued scores (their numeric value is
never computed by the code under verification, only moved around). -/
structure MetricsV where
  acc : Int
  prec : Int
  recl : Int
  f1 : Int
deriving DecidableEq, Repr

/-- Outcome of `SentimentAnalyzer.analyzeArticles` as seen by callers: a
verdict object `{sentiment, confidence, error?}` (`verdictOut`), or an
error object `{error}` returned verbatim by the retry path (`rawErr`). -/
inductive AnalyzeOut
  | verdictOut (sentiment : String) (confidence : Int) (errText : Option String)
  | rawErr (msg : String)
deriving DecidableEq, Repr

/-- The result record assembled by `/api/analyze`.  JS `null`/absent
fields are modelled as `none`. -/
structure AnalysisResult where
  ticker : String
  summary : String
  articles : List Article
  sentiment : Option AnalyzeOut
  metrics : Option MetricsV
deriving DecidableEq, Repr

/-! ## Result cache (`src/server.js` lines 24–26, 257–278) -/

/-- `CACHE_TTL = 5 * 60 * 1000` milliseconds. -/
def CACHE_TTL : Int := 5 * 60 * 1000

/-- One entry of the `cache` map: `{ data, timestamp }`. -/
structure CacheEntry where
  data : AnalysisResult
  timestamp : Int
deriving DecidableEq

/-- The `cache` `Map` keyed by ticker. -/
def CacheMap := String → Option CacheEntry

/-- `getCachedResult(ticker)`: a fresh entry is returned; an expired one
(`now - timestamp ≥ CACHE_TTL`) is deleted on access and reported as a
miss.  Returns the possibly-updated map together with the lookup result. -/
def getCachedResult (now : Int) (cache : CacheMap) (ticker : String) :
    CacheMap × Option AnalysisResult :=
  match cache ticker with
  | some e =>
      if now - e.timestamp < CACHE_TTL then (cache, some e.data)
      else ((fun k => if k = ticker then none else cache k), none)
  | none => (cache, none)

/-- `setCachedResult(ticker, data)`: `cache.set(ticker, {data, timestamp: Date.now()})`. -/
def setCachedResult (now : Int) (cache : CacheMap) (ticker : String)
    (d : AnalysisResult) : CacheMap :=
  fun k => if k = ticker then some ⟨d, now⟩ else cache k

/-- The empty cache at process start. -/
def emptyCache : CacheMap := fun _ => none

/-! ## News fetching — `fetchYahooNews` (`src/server.js` lines 32–188)

The function body declares `const articles = []` (line 33) and later
executes `articles = articles.slice(0, 10)` (lines 80 and 171).  An
assignment to a `const` binding throws a `TypeError` at run time; each
occurrence sits inside the strategy's own `try` block, so the exception
is swallowed by that strategy's `catch`.  The model reproduces this
control flow exactly: in each strategy everything *before* the
`slice` reassignment (the pushes and the in-place `sort`) takes effect,
the truncation/`dateObj`-stripping never does, and control always falls
through to the next stage, finally reaching the `return articles` at
line 187. -/

/-- An RSS `<item>` after XML parsing: `title`, `link`, `description`
texts and the parsed publication timestamp (`none` models a missing or
empty `<pubDate>`, in which case the code dates the article "now"). -/
structure RssItem where
  title : String
  link : String
  pubDate : Option Int
  description : String
deriving DecidableEq, Repr

/-- A scraped anchor from the fallback page, post date-resolution:
`dateText` is the raw date string, `dateObj` the timestamp the relative
or absolute date parsing resolved it to. -/
structure ScrapeItem where
  title : String
  link : String
  dateText : String
  dateObj : Int
deriving DecidableEq, Repr

/-- An element of the internal `articles` array: the pushed object still
carrying its `dateObj` (the stripping `map` at lines 83/174 is dead code
behind the `TypeError`).  Fallback pushes have no `description`
property; that absence is modelled as `""`. -/
structure ArticleF where
  title : String
  link : String
  date : String
  dateObj : Int
  description : String
deriving DecidableEq, Repr

/-- Rendering of `dateObj.toLocaleDateString()`; the exact locale text
is irrelevant to the claims, only that dated items get it. -/
def fmtDate (ts : Int) : String := "D" ++ toString ts

/-- The RSS item loop (lines 49–76): push every item with truthy title
and link; `pubDate` present ⇒ `dateObj = new Date(pubDate)`, otherwise
`dateObj` defaults to now and `date` to `"Recent"`. -/
def parseRssItems (now : Int) (items : List RssItem) : List ArticleF :=
  items.filterMap (fun it =>
    if it.title ≠ "" && it.link ≠ "" then
      some { title := it.title
             link := it.link
             date := match it.pubDate with
                     | some d => fmtDate d
                     | none => "Recent"
             dateObj := it.pubDate.getD now
             description := it.description }
    else none)

/-- Stable insertion of an article into a list sorted descending by
`dateObj`; models the ES2019 stable `sort((a, b) => b.dateObj - a.dateObj)`. -/
def insertDesc (a : ArticleF) : List ArticleF → List ArticleF
  | [] => [a]
  | b :: rest => if a.dateObj > b.dateObj then a :: b :: rest else b :: insertDesc a rest

/-- Stable sort, descending by `dateObj`. -/
def sortDesc (l : List ArticleF) : List ArticleF := l.foldl (fun acc a => insertDesc a acc) []

/-- `link.startsWith('http') ? link : 'https://finance.yahoo.com' + link`. -/
def fullLink (link : String) : String :=
  if matchesAt "http".data link.data then link else "https://finance.yahoo.com" ++ link

/-- The fallback selector loop (lines 117–167): each selector's matches
are pushed (skipping falsy titles/links and titles already present —
the only de-duplication in the whole function), and the loop breaks as
soon as the accumulated `articles` array is non-empty. -/
def selectorLoop (arts : List ArticleF) : List (List ScrapeItem) → List ArticleF
  | [] => arts
  | sel :: rest =>
      let arts' := sel.foldl (fun acc it =>
        if it.title ≠ "" && it.link ≠ "" &&
            acc.all (fun a => a.title ≠ it.title) then
          acc ++ [{ title := it.title
                    link := fullLink it.link
                    date := it.dateText
                    dateObj := it.dateObj
                    description := "" }]
        else acc) arts
      if arts'.length > 0 then arts' else selectorLoop arts' rest

/-- The two HTTP requests `fetchYahooNews` can issue. -/
inductive FetchEv
  | rssRequest
  | pageRequest
deriving DecidableEq, Repr

/-- `fetchYahooNews(ticker)`.

`rss` is the outcome of the primary `axios.get` + XML parse
(`.error` = request failed / timed out; `.ok items` = the parsed
`<item>` list, possibly empty).  `page` is the outcome of the fallback
`axios.get` + HTML parse (`.ok` = the per-selector match lists for the
four selectors).

Control flow of the source, with the `const`-reassignment `TypeError`s:
the primary strategy pushes and sorts its articles, then throws at
line 80 and is caught at line 89; the fallback request is therefore
always issued; a successful fallback pushes (de-duplicated) on top of
whatever the primary collected, sorts, then throws at line 171 and is
caught at line 180; finally line 187 returns the accumulated array.
Returns the article list and the requests issued. -/
def fetchYahooNews (now : Int) (rss : Except Unit (List RssItem))
    (page : Except Unit (List (List ScrapeItem))) : List ArticleF × List FetchEv :=
  let arts1 : List ArticleF :=
    match rss with
    | .error _ => []
    | .ok items => sortDesc (parseRssItems now items)
  match page with
  | .error _ => (arts1, [.rssRequest, .pageRequest])
  | .ok sels => (sortDesc (selectorLoop arts1 sels), [.rssRequest, .pageRequest])

/-! ## Summaries (`src/server.js` lines 190–255) -/

/-- `generateFastSummary(articles)` (lines 191–200). -/
def generateFastSummary (articles : List Article) : String :=
  if articles = [] then "No recent news articles found for this ticker."
  else
    let topArticles := articles.take 3
    let topics := String.intercalate "; " (topArticles.map (fun a => a.title))
    "Recent news highlights: " ++
      (if topArticles.length > 0 then topics else "No recent updates") ++
      ". Check the articles below for more details."

/-- Shapes of the value resolved by `hf.summarization(...)`, as the
response-format dispatch at lines 235–247 distinguishes them:
a plain string, an object with a `summary_text` field, an array whose
first element has `summary_text`, an array whose first element is a
string, `null`/`undefined` (whose property access throws), or any
other shape (all probes fail benignly). -/
inductive HfResp
  | strResp (s : String)
  | objSummary (s : String)
  | arrObjSummary (s : String)
  | arrStr (s : String)
  | nullResp
  | otherResp
deriving DecidableEq, Repr

/-- The `summaryText` dispatch chain (lines 235–247); `none` models the
`TypeError` thrown by `summary.summary_text` on `null`/`undefined`
(caught by the surrounding `catch`).  Empty strings are falsy, so an
empty `summary_text` falls through to the final `else`. -/
def summaryTextOf : HfResp → Option String
  | .strResp s => some s
  | .objSummary s => some (if s = "" then "Summary generated successfully." else s)
  | .arrObjSummary s => some (if s = "" then "Summary generated successfully." else s)
  | .arrStr s => some (if s = "" then "Summary generated successfully." else s)
  | .nullResp => none
  | .otherResp => some "Summary generated successfully."

/-- The numbered prompt text built at lines 209–212 from the top 5
article titles. -/
def newsTextOf (articles : List Article) : String :=
  String.intercalate "\n"
    ((articles.take 5).enum.map (fun p => toString (p.1 + 1) ++ ". " ++ p.2.title))

/-- `summarizeArticlesWithAI(articles)` (lines 203–255).  `hf` is the
outcome of the `hf.summarization` call (`.error` = the promise
rejected: auth/rate-limit/timeout/network).  The function never
rejects: every throw site is inside the `try`, whose `catch` returns
the fast summary. -/
def summarizeArticlesWithAI (articles : List Article)
    (hf : Except String HfResp) : Except String String :=
  if articles = [] then .ok "No recent news articles found for this ticker."
  else
    let newsText := newsTextOf articles
    if newsText.length < 50 then .ok (generateFastSummary articles)
    else
      match hf with
      | .error _ => .ok (generateFastSummary articles)
      | .ok r =>
          match summaryTextOf r with
          | none => .ok (generateFastSummary articles)
          | some t => .ok (if t = "" then "Summary generated successfully." else t)

/-! ## `TickerAnalyzer.analyze` — single-flight queue
(`src/modules/ticker-analyzer.js` lines 38–109)

The single-threaded event loop is modelled as a state machine.  The
synchronous head of `analyze` (the `isAnalyzing` check up to the
`axios.post` suspension) is one atomic step; the resumption when the
HTTP promise settles (the rest of the `try`/`catch` plus the `finally`)
is another; the firing of a `setTimeout` scheduled by the `finally` is
a third.  `inFlight` instruments the number of analyses that have
entered the `try` body and not yet run their `finally`. -/

/-- Payload delivered by a completed backend request. -/
structure AnalysisData where
  payload : AnalysisResult
deriving DecidableEq

/-- `TickerAnalyzer` instance state, plus instrumentation: `timers` are
the tickers whose `setTimeout(() => this.analyze(t), 500)` is scheduled
but has not fired; `callbacks` logs `onAnalysisComplete` invocations. -/
structure TAState where
  isAnalyzing : Bool
  pendingTickers : List String
  current : Option String
  inFlight : Nat
  timers : List String
  callbacks : List (String × AnalysisData)
deriving DecidableEq

/-- State at construction. -/
def initTA : TAState :=
  { isAnalyzing := false, pendingTickers := [], current := none
    inFlight := 0, timers := [], callbacks := [] }

/-- What a call to `analyze(ticker)` does synchronously and what the
caller's promise resolves to when the guard takes the queue branch:
`queuedUndefined` is the bare `return;` (the promise resolves to
`undefined` immediately, carrying no analysis result). -/
inductive EnterResult
  | queuedUndefined
  | started
deriving DecidableEq, Repr

/-- The synchronous head of `analyze(ticker)` (lines 38–56): if a run
is in flight, append to `pendingTickers` and return `undefined`;
otherwise set `isAnalyzing`, normalize the ticker and issue the
request. -/
def taEnter (s : TAState) (ticker : String) : TAState × EnterResult :=
  if s.isAnalyzing then
    ({ s with pendingTickers := s.pendingTickers ++ [ticker] }, .queuedUndefined)
  else
    ({ s with isAnalyzing := true
              inFlight := s.inFlight + 1
              current := some (jsToUpper (jsTrim ticker)) }, .started)

/-- How the in-flight `axios.post` settles: resolved with a payload,
resolved with a body carrying `error` (handled at lines 60–66, caller
gets `null`), or rejected (the `catch` at lines 74–95). -/
inductive ReqOutcome
  | okData (d : AnalysisData)
  | okErrBody (msg : String)
  | rejected (code : String)
deriving DecidableEq

/-- The resumption after `axios.post` settles: the `try`/`catch` body
(invoking `onAnalysisComplete` on success) followed by the `finally`
(lines 96–108): clear `isAnalyzing`, and if tickers are pending, shift
the first and schedule its analysis on a 500 ms timer. -/
def taFinish (s : TAState) (outcome : ReqOutcome) : TAState :=
  if s.isAnalyzing then
    let s1 :=
      match outcome, s.current with
      | .okData d, some t => { s with callbacks := s.callbacks ++ [(t, d)] }
      | _, _ => s
    let s2 := { s1 with isAnalyzing := false, current := none
                        inFlight := s1.inFlight - 1 }
    match s2.pendingTickers with
    | [] => s2
    | n :: rest => { s2 with pendingTickers := rest, timers := s2.timers ++ [n] }
  else s

/-- One event of the interleaving: an external `analyze` call, the
settling of the in-flight request, or the firing of the earliest
scheduled timer (which calls `analyze` on the queued ticker). -/
inductive TAEvent
  | submit (ticker : String)
  | finish (outcome : ReqOutcome)
  | fire
deriving DecidableEq

/-- Transition function of the event loop.  A `finish` can only occur
for an analysis that actually entered the `try` body, hence the
`isAnalyzing` guard inside `taFinish`; a `fire` with no scheduled
timer is a no-op. -/
def taStep (s : TAState) : TAEvent → TAState
  | .submit t => (taEnter s t).1
  | .finish o => taFinish s o
  | .fire =>
      match s.timers with
      | [] => s
      | t :: rest => (taEnter { s with timers := rest } t).1

/-- Run a sequence of events from a state. -/
def taRun (s : TAState) (evs : List TAEvent) : TAState := evs.foldl taStep s

/-! ## Clipboard watcher (`src/main.js` lines 164–215) -/

/-- The watcher's state: `lastClipboardText` (updated on every observed
change, dispatched or not) and `lastProcessTime` (0 at startup). -/
structure ClipState where
  lastClipboardText : String
  lastProcessTime : Int
deriving DecidableEq, Repr

/-- One 500 ms poll tick (lines 178–214): read the clipboard, trim; on
a non-empty changed value record it, and dispatch it to
`tickerAnalyzer.analyze` iff it is a valid ticker and more than 2000 ms
have passed since the last dispatch.  Returns the new state and the
dispatched ticker, if any. -/
def clipTick (s : ClipState) (now : Int) (clipText : String) :
    ClipState × Option String :=
  let trimmedText := jsTrim clipText
  let lastTrimmed := jsTrim s.lastClipboardText
  if trimmedText ≠ "" && trimmedText ≠ lastTrimmed then
    let s1 := { s with lastClipboardText := trimmedText }
    if isValidTicker trimmedText then
      if now - s.lastProcessTime > 2000 then
        ({ s1 with lastProcessTime := now }, some trimmedText)
      else (s1, none)
    else (s1, none)
  else (s, none)

/-- Run a sequence of polls; collects the dispatched tickers in order. -/
def clipRun (s : ClipState) : List (Int × String) → ClipState × List String
  | [] => (s, [])
  | (now, txt) :: rest =>
      let (s1, d) := clipTick s now txt
      let (s2, ds) := clipRun s1 rest
      (s2, (match d with | some t => [t] | none => []) ++ ds)

/-- Watcher state right after `startClipboardMonitoring` when the
clipboard initially holds `init`: `lastClipboardText` is the trimmed
initial clipboard, `lastProcessTime` is `0`. -/
def clipInit (init : String) : ClipState := { lastClipboardText := jsTrim init, lastProcessTime := 0 }

/-! ## Sentiment client (`src/modules/sentiment-analyzer.js`)

Every `execAsync('python3 sentiment_analyzer.py ...')` call site draws
the next outcome from a `script` list carried in the state, in call
order.  An `.error msg` entry models a rejected execution or a
`JSON.parse` throw (the two are indistinguishable to the JS `catch`);
an `.ok resp` entry is the parsed JSON. -/

/-- Modelled from the spec: the JSON output protocol of the external
classifier process (`sentiment_analyzer.py`, which is referenced by
`src/modules/sentiment-analyzer.js` but not present under `src/`).
Per §4.5 the boundary is JSON in / JSON out: a `train` run prints
`{success, metrics?, error?}`; a `metrics` run prints the metrics
object or `{error}`; a predict run prints `{sentiment, confidence}` or
`{error}`. -/
inductive PyResp
  | predVerdict (sentiment : String) (confidence : Int)
  | predErr (msg : String)
  | trainOk (m : MetricsV)
  | trainFail (msg : String)
  | metricsResp (m : MetricsV)
deriving DecidableEq, Repr

deriving instance DecidableEq for Except

/-- Outcome of one `execAsync` + `JSON.parse`. -/
abbrev ExecOutcome := Except String PyResp

/-- `SentimentAnalyzer` instance state plus the scripted exec outcomes
still to be consumed. -/
structure SAState where
  isTrained : Bool
  metrics : Option MetricsV
  script : List ExecOutcome
deriving DecidableEq

/-- Consume the next scripted exec outcome (an exhausted script rejects,
which no theorem below exercises). -/
def popExec (s : SAState) : SAState × ExecOutcome :=
  match s.script with
  | [] => (s, Except.error "script exhausted")
  | r :: rest => ({ s with script := rest }, r)

/-- Truthiness of `result.error` on a parsed response. -/
def respErrTruthy : PyResp → Bool
  | .predErr e => e ≠ ""
  | .trainFail e => e ≠ ""
  | _ => false

/-- `return result` for a parsed predict response: a verdict object
stays a verdict, anything still carrying only an `error` field is
returned as that raw object. -/
def respToOut : PyResp → AnalyzeOut
  | .predVerdict sent conf => .verdictOut sent conf none
  | .predErr e => .rawErr e
  | .trainFail e => .rawErr e
  | .trainOk _ => .rawErr ""
  | .metricsResp _ => .rawErr ""

/-- `train()` (lines 23–41): run the script's `train` command; on
`{success: true}` record `isTrained` and cache `metrics`; otherwise
throw `result.error || 'Training failed'`; a rejected execution is
rethrown. -/
def trainSA (s : SAState) : SAState × Except String MetricsV :=
  let (s1, r) := popExec s
  match r with
  | .error m => (s1, .error m)
  | .ok (.trainOk m) => ({ s1 with isTrained := true, metrics := some m }, .ok m)
  | .ok (.trainFail e) => (s1, .error (if e = "" then "Training failed" else e))
  | .ok _ => (s1, .error "Training failed")

/-- `getMetrics()` (lines 47–68): cached metrics are returned directly
with no subprocess call; otherwise run the `metrics` command, train on
an error response or a throw, and cache a good response. -/
def getMetricsSA (s : SAState) : SAState × Except String MetricsV :=
  match s.metrics with
  | some m => (s, .ok m)
  | none =>
      let (s1, r) := popExec s
      match r with
      | .ok (.metricsResp m) => ({ s1 with metrics := some m }, .ok m)
      | .ok _ => trainSA s1
      | .error _ => trainSA s1

/-- The text construction of `analyzeArticles` (lines 86–92): title
plus the first 200 characters of the description, trimmed, empty
results dropped. -/
def buildTexts (articles : List Article) : List String :=
  (articles.map (fun a => jsTrim (a.title ++ " " ++ String.mk (a.description.data.take 200)))).filter
    (fun t => t ≠ "")

/-- `analyzeArticles(articles)` (lines 75–132), with `fuel` bounding the
`return await this.analyzeArticles(articles)` self-call of the `catch`
handler (line 123); the claims below only exercise runs whose depth is
under the fuel.  The result is `.error` exactly when the JS promise
rejects (which happens only when `this.train()` throws inside the
`catch` handler). -/
def analyzeArticlesSA : Nat → SAState → List Article → SAState × Except String AnalyzeOut
  | 0, s, _ => (s, .error "recursion limit")
  | Nat.succ fuel, s, arts =>
    -- the catch handler (lines 117–131), given the thrown message
    let handleCatch : SAState → String → SAState × Except String AnalyzeOut :=
      fun s' msg =>
        if strIncludes msg "not trained" then
          let (s2, tr) := trainSA s'
          match tr with
          | .error te => (s2, .error te)
          | .ok _ => analyzeArticlesSA fuel s2 arts
        else (s', .ok (.verdictOut "neutral" 0 (some msg)))
    if arts = [] then
      (s, .ok (.verdictOut "neutral" 0 (some "No articles to analyze")))
    else
      let texts := buildTexts arts
      if texts = [] then
        (s, .ok (.verdictOut "neutral" 0 (some "No text content found")))
      else
        let (s1, r) := popExec s
        match r with
        | .error e => handleCatch s1 e
        | .ok resp =>
            if respErrTruthy resp then
              -- `result.error` branch (lines 108–114): train, then retry once
              let (s2, tr) := trainSA s1
              match tr with
              | .error te => handleCatch s2 te
              | .ok _ =>
                  let (s3, r2) := popExec s2
                  match r2 with
                  | .error e2 => handleCatch s3 e2
                  | .ok resp2 => (s3, .ok (respToOut resp2))
            else (s1, .ok (respToOut resp))

/-! ## The `/api/analyze` handler (`src/server.js` lines 292–393) -/

/-- The cleaning at line 301:
`ticker.trim().toUpperCase().replace(/[^A-Z0-9.]/g, '')`. -/
def cleanTickerStr (s : String) : String :=
  String.mk ((jsToUpper (jsTrim s)).data.filter isTickerChar)

/-- A response body: the result record or `{ error }`. -/
inductive RespBody
  | okBody (r : AnalysisResult)
  | errBody (msg : String)
deriving DecidableEq

/-- Observable actions of one handler invocation, in program order:
the call into `fetchYahooNews` (the first network I/O), a
`setCachedResult` write, and the HTTP response. -/
inductive SrvEv
  | fetchIssued (ticker : String)
  | cacheWrite (ticker : String) (r : AnalysisResult)
  | respond (status : Nat) (body : RespBody)
deriving DecidableEq

/-- How the sentiment stage (lines 360–371) resolves: both awaits
succeed; `analyzeArticles` rejects (both locals stay `null`); or
`getMetrics` rejects after a verdict was assigned. -/
inductive SentStage
  | sentOk (v : AnalyzeOut) (m : MetricsV)
  | sentFailFirst
  | sentFailMetrics (v : AnalyzeOut)
deriving DecidableEq

/-- Outcomes of the stages the handler awaits on. -/
structure AnalyzeDeps where
  fetchOutcome : Except String (List Article)
  useAISummary : Bool
  hfOutcome : Except String HfResp
  sentStage : SentStage

/-- The summary text of the empty-article result (line 331). -/
def noNewsSummary (cleanTicker : String) : String :=
  "No recent news articles found for " ++ cleanTicker ++
    ". The ticker may be invalid or there may be no recent news. Please verify the ticker symbol is correct."

/-- The `/api/analyze` handler.  `body` is `req.body.ticker`
(`none` = key absent; the empty string is also falsy at line 296).
Returns the cache after the invocation and the emitted events in
program order. -/
def apiAnalyze (now : Int) (cache : CacheMap) (body : Option String)
    (deps : AnalyzeDeps) : CacheMap × List SrvEv :=
  match body with
  | none => (cache, [.respond 400 (.errBody "Ticker symbol is required")])
  | some ticker =>
    if ticker = "" then (cache, [.respond 400 (.errBody "Ticker symbol is required")])
    else
      let cleanTicker := cleanTickerStr ticker
      if cleanTicker = "" then (cache, [.respond 400 (.errBody "Invalid ticker symbol")])
      else
        let (cache1, got) := getCachedResult now cache cleanTicker
        match got with
        | some r => (cache1, [.respond 200 (.okBody r)])
        | none =>
          match deps.fetchOutcome with
          | .error m =>
              (cache1, [.fetchIssued cleanTicker,
                        .respond 500 (.errBody ("Failed to fetch news: " ++ m))])
          | .ok articles =>
            if articles = [] then
              let r : AnalysisResult :=
                { ticker := cleanTicker, summary := noNewsSummary cleanTicker
                  articles := [], sentiment := none, metrics := none }
              (setCachedResult now cache1 cleanTicker r,
               [.fetchIssued cleanTicker, .cacheWrite cleanTicker r,
                .respond 200 (.okBody r)])
            else
              let summary :=
                if deps.useAISummary then
                  match summarizeArticlesWithAI articles deps.hfOutcome with
                  | .ok s => s
                  | .error _ => generateFastSummary articles
                else generateFastSummary articles
              let sentPair : Option AnalyzeOut × Option MetricsV :=
                match deps.sentStage with
                | .sentOk v m => (some v, some m)
                | .sentFailFirst => (none, none)
                | .sentFailMetrics v => (some v, none)
              let r : AnalysisResult :=
                { ticker := cleanTicker, summary := summary, articles := articles
                  sentiment := sentPair.1, metrics := sentPair.2 }
              (setCachedResult now cache1 cleanTicker r,
               [.fetchIssued cleanTicker, .cacheWrite cleanTicker r,
                .respond 200 (.okBody r)])

/-! ## Concrete inputs used by counterexamples and witnesses -/

/-- A primary feed of 12 well-formed, dated, distinct-title entries
(the scenario of §8 Scenario A). -/
def feed12 : List RssItem :=
  [⟨"T01", "u01", some 1000, "d01"⟩, ⟨"T02", "u02", some 2000, "d02"⟩,
   ⟨"T03", "u03", some 3000, "d03"⟩, ⟨"T04", "u04", some 4000, "d04"⟩,
   ⟨"T05", "u05", some 5000, "d05"⟩, ⟨"T06", "u06", some 6000, "d06"⟩,
   ⟨"T07", "u07", some 7000, "d07"⟩, ⟨"T08", "u08", some 8000, "d08"⟩,
   ⟨"T09", "u09", some 9000, "d09"⟩, ⟨"T10", "u10", some 10000, "d10"⟩,
   ⟨"T11", "u11", some 11000, "d11"⟩, ⟨"T12", "u12", some 12000, "d12"⟩]

/-- Handler dependencies for a run whose fetch finds nothing. -/
def depsEmptyFetch : AnalyzeDeps :=
  { fetchOutcome := .ok [], useAISummary := false
    hfOutcome := .error "unused", sentStage := .sentFailFirst }

/-- The empty-article result the handler assembles for `ABCDEF`. -/
def rEmptyABCDEF : AnalysisResult :=
  { ticker := "ABCDEF", summary := noNewsSummary "ABCDEF"
    articles := [], sentiment := none, metrics := none }

/-- A single article whose sentiment text is non-empty. -/
def artSent : Article :=
  { title := "Stocks rally on earnings", link := "u", date := "d"
    description := "Shares climbed." }

/-- Concrete classifier metrics. -/
def m0 : MetricsV := { acc := 85, prec := 80, recl := 78, f1 := 79 }

/-- A single article whose numbered prompt text reaches the 50-character
minimum of the AI summarization path. -/
def artLong : Article :=
  { title := "Quarterly earnings beat expectations across the board"
    link := "u", date := "d", description := "" }

/-- A concrete analysis result, for cache witnesses. -/
def rAAPL : AnalysisResult :=
  { ticker := "AAPL", summary := "s", articles := [], sentiment := none, metrics := none }

/-- A cache holding an entry for `AAPL` stored at time 0. -/
def cacheAAPL : CacheMap := fun k => if k = "AAPL" then some ⟨rAAPL, 0⟩ else none

/-- The single-flight invariant: the number of analyses inside the
`try` body mirrors the `isAnalyzing` flag. -/
def taInv (s : TAState) : Prop := s.inFlight = if s.isAnalyzing then 1 else 0

/-- A concrete `TickerAnalyzer` state with an analysis of `TSLA` in
flight and one ticker pending. -/
def sBusy : TAState :=
  { isAnalyzing := true, pendingTickers := ["AMD"], current := some "TSLA"
    inFlight := 1, timers := [], callbacks := [] }

/-! # Theorems -/

/-- C1 (code_bug): on a primary feed of 12 well-formed dated entries
the claim promises the 10 most recent articles, newest first, with the
fallback never attempted.  The code instead throws a `TypeError` at the
`articles = articles.slice(0, 10)` reassignment of the `const`
`articles` binding, falls through both strategies, and finally returns
all 12 articles — untruncated, `dateObj` unstripped — after issuing the
fallback request as well. -/
theorem c1_fetch_const_bug :
    (fetchYahooNews 2000000 (.ok feed12) (.error ())).1.length = 12 ∧
    (fetchYahooNews 2000000 (.ok feed12) (.error ())).1 =
      sortDesc (parseRssItems 2000000 feed12) ∧
    (fetchYahooNews 2000000 (.ok feed12) (.error ())).2 =
      [.rssRequest, .pageRequest] := by
  decide

/-- C2 (code_bug): the claim says the fallback request is issued only
when the primary strategy yields zero articles.  In the code the
`const`-reassignment `TypeError` aborts the primary strategy after its
parse on every call, so the fallback request is issued even on a run
whose primary feed parsed 12 articles. -/
theorem c2_fallback_requested_despite_primary :
    (parseRssItems 2000000 feed12).length = 12 ∧
    FetchEv.pageRequest ∈ (fetchYahooNews 2000000 (.ok feed12) (.error ())).2 := by
  decide

/-- C3 (counterexample): `"ABCDEF"` survives cleaning unchanged, does
not match the ticker shape, and is nevertheless not rejected — the
handler proceeds to the fetch (network I/O) and a 200 response. -/
theorem c3_counterexample :
    cleanTickerStr "ABCDEF" = "ABCDEF" ∧
    isValidTicker "ABCDEF" = false ∧
    (apiAnalyze 0 emptyCache (some "ABCDEF") depsEmptyFetch).2 =
      [.fetchIssued "ABCDEF", .cacheWrite "ABCDEF" rEmptyABCDEF,
       .respond 200 (.okBody rEmptyABCDEF)] := by
  decide

/-- C6 (counterexample): the watcher keeps no last-processed-ticker
state.  After `MSFT` is processed, a change to a non-ticker string and
back to `MSFT` dispatches `MSFT` a second time even though it equals
the last processed ticker, refuting "dispatched only if it differs
from the last processed ticker". -/
theorem c6_counterexample :
    clipRun (clipInit "hello world")
        [(10000, "MSFT"), (13000, "buy now!!"), (16000, "MSFT")] =
      ({ lastClipboardText := "MSFT", lastProcessTime := 16000 }, ["MSFT", "MSFT"]) := by
  decide

/-- C7 (counterexample): first prediction reports untrained, training
succeeds, and the single retry again returns an error response.  The
claim promises a neutral zero-confidence verdict carrying the error
text; the code returns the retry's parsed `{error}` object verbatim
(`rawErr`), which carries no sentiment or confidence at all. -/
theorem c7_counterexample :
    analyzeArticlesSA 3
        { isTrained := false, metrics := none
          script := [.ok (.predErr "Model not trained"), .ok (.trainOk m0),
                     .ok (.predErr "Model not trained")] }
        [artSent] =
      ({ isTrained := true, metrics := some m0, script := [] },
       .ok (.rawErr "Model not trained")) := by
  decide

/-- C8 (counterexample): with a long-enough prompt and a malformed
(non-throwing) response shape, the AI path resolves to the fixed
placeholder `"Summary generated successfully."`, not to the fast-path
summary the claim promises for malformed response shapes. -/
theorem c8_counterexample :
    summarizeArticlesWithAI [artLong] (.ok .otherResp) =
      .ok "Summary generated successfully." ∧
    summarizeArticlesWithAI [artLong] (.ok .otherResp) ≠
      .ok (generateFastSummary [artLong]) := by
  decide

/-- C4: cache round-trip, lazy expiry, and replacement.  A `put`
followed by an immediate `get` returns the stored result; a `get` at
or past the TTL reports a miss and deletes the entry; a `put` over an
existing entry fully replaces it (timestamp included). -/
theorem c4_cache_spec :
    (∀ (now : Int) (c : CacheMap) (t : String) (d : AnalysisResult),
        getCachedResult now (setCachedResult now c t d) t =
          (setCachedResult now c t d, some d)) ∧
    (∀ (now' : Int) (c : CacheMap) (t : String) (e : CacheEntry),
        c t = some e → now' - e.timestamp ≥ CACHE_TTL →
        (getCachedResult now' c t).2 = none ∧
        (getCachedResult now' c t).1 t = none) ∧
    (∀ (now₁ now₂ : Int) (c : CacheMap) (t : String) (d₁ d₂ : AnalysisResult),
        setCachedResult now₂ (setCachedResult now₁ c t d₁) t d₂ =
          setCachedResult now₂ c t d₂) := by
  refine ⟨?_, ?_, ?_⟩
  · intro now c t d
    simp [getCachedResult, setCachedResult, CACHE_TTL]
  · intro now' c t e h hexp
    have hlt : ¬ now' - e.timestamp < CACHE_TTL := not_lt.mpr hexp
    constructor
    · simp [getCachedResult, h, hlt]
    · simp [getCachedResult, h, hlt]
  · intro now₁ now₂ c t d₁ d₂
    funext k
    by_cases hk : k = t <;> simp [setCachedResult, hk]

/-- C4 witness: the three parts of `c4_cache_spec` at concrete inputs. -/
theorem c4_cache_spec_witness :
    (getCachedResult 5 (setCachedResult 5 emptyCache "AAPL" rAAPL) "AAPL" =
      (setCachedResult 5 emptyCache "AAPL" rAAPL, some rAAPL)) ∧
    ((getCachedResult 300000 cacheAAPL "AAPL").2 = none ∧
     (getCachedResult 300000 cacheAAPL "AAPL").1 "AAPL" = none) ∧
    (setCachedResult 9 (setCachedResult 4 emptyCache "AAPL" rAAPL) "AAPL" rAAPL =
      setCachedResult 9 emptyCache "AAPL" rAAPL) :=
  ⟨c4_cache_spec.1 5 emptyCache "AAPL" rAAPL,
   c4_cache_spec.2.1 300000 cacheAAPL "AAPL" ⟨rAAPL, 0⟩ (by decide) (by decide),
   c4_cache_spec.2.2 4 9 emptyCache "AAPL" rAAPL rAAPL⟩

/-- The synchronous head of `analyze` preserves the single-flight
invariant. -/
theorem taEnter_taInv (s : TAState) (t : String) (h : taInv s) :
    taInv (taEnter s t).1 := by
  unfold taInv at *
  cases hb : s.isAnalyzing <;> simp [taEnter, hb] <;> simp [hb] at h <;> omega

/-- The post-request resumption preserves the single-flight invariant. -/
theorem taFinish_taInv (s : TAState) (o : ReqOutcome) (h : taInv s) :
    taInv (taFinish s o) := by
  unfold taInv at *
  cases hb : s.isAnalyzing with
  | false => simp [taFinish, hb]; simpa [hb] using h
  | true =>
    simp [hb] at h
    cases o <;> rcases hc : s.current with _ | t <;>
      rcases hp : s.pendingTickers with _ | ⟨n, rest⟩ <;>
        simp [taFinish, hb, hc, hp, h]

/-- Every event of the event loop preserves the single-flight invariant. -/
theorem taStep_taInv (s : TAState) (e : TAEvent) (h : taInv s) :
    taInv (taStep s e) := by
  cases e with
  | submit t => exact taEnter_taInv s t h
  | finish o => exact taFinish_taInv s o h
  | fire =>
    cases ht : s.timers with
    | nil => simpa [taStep, ht] using h
    | cons t rest =>
      have h' : taInv { s with timers := rest } := by simpa [taInv] using h
      simpa [taStep, ht] using taEnter_taInv { s with timers := rest } t h'

/-- Any event trace preserves the single-flight invariant. -/
theorem taRun_taInv (evs : List TAEvent) :
    ∀ s : TAState, taInv s → taInv (taRun s evs) := by
  induction evs with
  | nil => intro s h; simpa [taRun] using h
  | cons e rest ih =>
    intro s h
    simpa [taRun] using ih (taStep s e) (taStep_taInv s e h)

/-- C5: single-flight invariant.  (1) Along every event trace from the
constructed analyzer at most one analysis is inside the `try` body;
(2) a ticker submitted while one is in flight is appended to the
pending FIFO without de-duplication, the caller's promise resolving at
once with `undefined`; (3) when an in-flight analysis completes — by
success or failure alike — the next pending ticker is shifted off and
scheduled on the 500 ms delay timer. -/
theorem c5_single_flight :
    (∀ evs : List TAEvent, (taRun initTA evs).inFlight ≤ 1) ∧
    (∀ (s : TAState) (t : String), s.isAnalyzing = true →
        taEnter s t =
          ({ s with pendingTickers := s.pendingTickers ++ [t] },
           .queuedUndefined)) ∧
    (∀ (s : TAState) (o : ReqOutcome) (n : String) (rest : List String),
        s.isAnalyzing = true → s.pendingTickers = n :: rest →
        (taFinish s o).isAnalyzing = false ∧
        (taFinish s o).pendingTickers = rest ∧
        (taFinish s o).timers = s.timers ++ [n]) := by
  refine ⟨?_, ?_, ?_⟩
  · intro evs
    have h0 : taInv initTA := by simp [taInv, initTA]
    have h := taRun_taInv evs initTA h0
    unfold taInv at h
    rw [h]
    cases (taRun initTA evs).isAnalyzing <;> simp
  · intro s t hb
    simp [taEnter, hb]
  · intro s o n rest hb hp
    cases o <;> rcases hc : s.current with _ | u <;>
      simp [taFinish, hb, hc, hp]

/-- C5 witness: parts (2) and (3) of `c5_single_flight` at the concrete
busy state `sBusy`. -/
theorem c5_single_flight_witness :
    (taEnter sBusy "NVDA" =
      ({ sBusy with pendingTickers := sBusy.pendingTickers ++ ["NVDA"] },
       .queuedUndefined)) ∧
    ((taFinish sBusy (.rejected "ECONNREFUSED")).isAnalyzing = false ∧
     (taFinish sBusy (.rejected "ECONNREFUSED")).pendingTickers = [] ∧
     (taFinish sBusy (.rejected "ECONNREFUSED")).timers = sBusy.timers ++ ["AMD"]) :=
  ⟨c5_single_flight.2.1 sBusy "NVDA" (by decide),
   c5_single_flight.2.2 sBusy (.rejected "ECONNREFUSED") "AMD" [] (by decide) (by decide)⟩

/-- C10: a call to `analyze` made while another analysis is in flight
only queues the ticker: it returns at once with `undefined`, invoking
no callback itself; the queued ticker's result is delivered through
the registered `onAnalysisComplete` callback when its own run later
completes. -/
theorem c10_queued_call_resolves_undefined :
    (∀ (s : TAState) (t : String), s.isAnalyzing = true →
        (taEnter s t).2 = EnterResult.queuedUndefined ∧
        (taEnter s t).1.pendingTickers = s.pendingTickers ++ [t] ∧
        (taEnter s t).1.callbacks = s.callbacks) ∧
    (∀ (s : TAState) (t : String) (d : AnalysisData),
        s.isAnalyzing = true → s.current = some t →
        (taFinish s (.okData d)).callbacks = s.callbacks ++ [(t, d)]) := by
  constructor
  · intro s t hb
    simp [taEnter, hb]
  · intro s t d hb hc
    rcases hp : s.pendingTickers with _ | ⟨n, rest⟩ <;>
      simp [taFinish, hb, hc, hp]

/-- C10 witness: both parts of `c10_queued_call_resolves_undefined` at
the concrete busy state `sBusy`. -/
theorem c10_queued_call_resolves_undefined_witness :
    ((taEnter sBusy "NFLX").2 = EnterResult.queuedUndefined ∧
     (taEnter sBusy "NFLX").1.pendingTickers = sBusy.pendingTickers ++ ["NFLX"] ∧
     (taEnter sBusy "NFLX").1.callbacks = sBusy.callbacks) ∧
    (taFinish sBusy (.okData ⟨rAAPL⟩)).callbacks =
      sBusy.callbacks ++ [("TSLA", ⟨rAAPL⟩)] :=
  ⟨c10_queued_call_resolves_undefined.1 sBusy "NFLX" (by decide),
   c10_queued_call_resolves_undefined.2 sBusy "TSLA" ⟨rAAPL⟩ (by decide) (by decide)⟩

/-- C3 (amended): the handler normalizes with trim/uppercase/strip
outside `[A-Z0-9.]`, and rejects — with a structured error, before any
fetch I/O and without touching the cache — exactly the missing, empty,
and empty-after-cleaning inputs; every other input (whether or not it
matches the ticker shape) enters the pipeline keyed by its cleaned
form, the fetch being its first action on a cache miss. -/
theorem c3_amended :
    ∀ (now : Int) (cache : CacheMap) (raw : String) (deps : AnalyzeDeps),
      (apiAnalyze now cache none deps =
        (cache, [.respond 400 (.errBody "Ticker symbol is required")])) ∧
      (raw = "" →
        apiAnalyze now cache (some raw) deps =
          (cache, [.respond 400 (.errBody "Ticker symbol is required")])) ∧
      (raw ≠ "" → cleanTickerStr raw = "" →
        apiAnalyze now cache (some raw) deps =
          (cache, [.respond 400 (.errBody "Invalid ticker symbol")])) ∧
      (raw ≠ "" → cleanTickerStr raw ≠ "" →
        ((apiAnalyze now emptyCache (some raw) deps).2.head? =
          some (.fetchIssued (cleanTickerStr raw)) ∨
         ∃ m, deps.fetchOutcome = .error m)) := by
  intro now cache raw deps
  refine ⟨rfl, ?_, ?_, ?_⟩
  · intro h; simp [apiAnalyze, h]
  · intro h hc; simp [apiAnalyze, h, hc]
  · intro h hc
    left
    rcases hf : deps.fetchOutcome with m | arts
    · simp [apiAnalyze, h, hc, getCachedResult, emptyCache, hf]
    · rcases harts : arts with _ | ⟨a, rest⟩ <;>
        simp [apiAnalyze, h, hc, getCachedResult, emptyCache, hf, harts]

/-- C3 amended witness: `"  msft! "` cleans to `"MSFT"`, is non-empty,
and the run on an empty cache starts with the fetch; `"@@@"` cleans to
empty and is rejected without any event but the 400 response. -/
theorem c3_amended_witness :
    (apiAnalyze 0 emptyCache (some "@@@") depsEmptyFetch =
      (emptyCache, [.respond 400 (.errBody "Invalid ticker symbol")])) ∧
    ((apiAnalyze 0 emptyCache (some "  msft! ") depsEmptyFetch).2.head? =
      some (.fetchIssued (cleanTickerStr "  msft! ")) ∨
     ∃ m, depsEmptyFetch.fetchOutcome = .error m) :=
  ⟨(c3_amended 0 emptyCache "@@@" depsEmptyFetch).2.2.1 (by decide) (by decide),
   (c3_amended 0 emptyCache "  msft! " depsEmptyFetch).2.2.2 (by decide) (by decide)⟩

/-- C6 (amended): a detected ticker is dispatched only if more than
2000 ms have elapsed since the last dispatch and only if the trimmed
clipboard text differs from the last *sampled* clipboard text (the
watcher keeps no last-processed-ticker state); an unchanged `MSFT`
value on the next poll dispatches nothing. -/
theorem c6_amended :
    (∀ (s : ClipState) (now : Int) (clip : String) (t : String),
        (clipTick s now clip).2 = some t →
        t = jsTrim clip ∧ isValidTicker (jsTrim clip) = true ∧
        jsTrim clip ≠ jsTrim s.lastClipboardText ∧
        now - s.lastProcessTime > 2000) ∧
    (clipRun (clipInit "hello world") [(10000, "MSFT"), (10600, "MSFT")] =
      ({ lastClipboardText := "MSFT", lastProcessTime := 10000 }, ["MSFT"])) := by
  constructor
  · intro s now clip t h
    unfold clipTick at h
    by_cases h1 : ¬jsTrim clip = "" ∧ ¬jsTrim clip = jsTrim s.lastClipboardText
    · by_cases h2 : isValidTicker (jsTrim clip) = true
      · by_cases h3 : now - s.lastProcessTime > 2000
        · simp [h1.1, h1.2, h2, h3] at h
          exact ⟨h.symm, h2, h1.2, h3⟩
        · simp [h1, h2, h3] at h
      · simp [h1, h2] at h
    · simp [h1] at h
  · decide

/-- C6 amended witness: part (1) of `c6_amended` at the first dispatch
of the counterexample trace. -/
theorem c6_amended_witness :
    "MSFT" = jsTrim "MSFT" ∧ isValidTicker (jsTrim "MSFT") = true ∧
    jsTrim "MSFT" ≠ jsTrim (clipInit "hello world").lastClipboardText ∧
    (10000 : Int) - (clipInit "hello world").lastProcessTime > 2000 :=
  c6_amended.1 (clipInit "hello world") 10000 "MSFT" "MSFT" (by decide)

/-- C7 (amended): when the first prediction returns an untrained/error
response, the client trains exactly once and retries the single
prediction exactly once; the retry's parsed response is returned
verbatim — a second error response is handed back as the raw error
object, while a retry that *throws* with a message not mentioning
"not trained" yields the neutral zero-confidence verdict carrying the
error text; the metrics produced by training are cached, and metrics
calls with a cached value return it without any subprocess call. -/
theorem c7_amended :
    (∀ (e : String) (m : MetricsV) (r2 : PyResp) (rest : List ExecOutcome)
        (arts : List Article),
        e ≠ "" → arts ≠ [] → buildTexts arts ≠ [] →
        analyzeArticlesSA 1
            { isTrained := false, metrics := none
              script := .ok (.predErr e) :: .ok (.trainOk m) :: .ok r2 :: rest } arts =
          ({ isTrained := true, metrics := some m, script := rest },
           .ok (respToOut r2))) ∧
    (∀ (e msg : String) (m : MetricsV) (rest : List ExecOutcome)
        (arts : List Article),
        e ≠ "" → arts ≠ [] → buildTexts arts ≠ [] →
        strIncludes msg "not trained" = false →
        analyzeArticlesSA 1
            { isTrained := false, metrics := none
              script := .ok (.predErr e) :: .ok (.trainOk m) :: .error msg :: rest } arts =
          ({ isTrained := true, metrics := some m, script := rest },
           .ok (.verdictOut "neutral" 0 (some msg)))) ∧
    (∀ (s : SAState) (m : MetricsV), s.metrics = some m →
        getMetricsSA s = (s, .ok m)) := by
  refine ⟨?_, ?_, ?_⟩
  · intro e m r2 rest arts he harts htexts
    simp [analyzeArticlesSA, harts, htexts, popExec, respErrTruthy, he, trainSA]
  · intro e msg m rest arts he harts htexts hmsg
    simp [analyzeArticlesSA, harts, htexts, popExec, respErrTruthy, he, trainSA, hmsg]
  · intro s m h
    simp [getMetricsSA, h]

/-- C7 amended witness: the three parts of `c7_amended` at concrete
inputs (a successful retry verdict, a throwing retry, and a state with
cached metrics). -/
theorem c7_amended_witness :
    (analyzeArticlesSA 1
        { isTrained := false, metrics := none
          script := [.ok (.predErr "Model not trained"), .ok (.trainOk m0),
                     .ok (.predVerdict "positive" 88)] } [artSent] =
      ({ isTrained := true, metrics := some m0, script := [] },
       .ok (respToOut (.predVerdict "positive" 88)))) ∧
    (analyzeArticlesSA 1
        { isTrained := false, metrics := none
          script := [.ok (.predErr "Model not trained"), .ok (.trainOk m0),
                     .error "spawn failed"] } [artSent] =
      ({ isTrained := true, metrics := some m0, script := [] },
       .ok (.verdictOut "neutral" 0 (some "spawn failed")))) ∧
    (getMetricsSA { isTrained := true, metrics := some m0, script := [] } =
      ({ isTrained := true, metrics := some m0, script := [] }, .ok m0)) :=
  ⟨c7_amended.1 "Model not trained" m0 (.predVerdict "positive" 88) [] [artSent]
      (by decide) (by decide) (by decide),
   c7_amended.2.1 "Model not trained" "spawn failed" m0 [] [artSent]
      (by decide) (by decide) (by decide) (by decide),
   c7_amended.2.2 { isTrained := true, metrics := some m0, script := [] } m0 rfl⟩

/-- C8 (amended): the AI summarization path never rejects and always
resolves to a string; a *thrown* error from the external call falls
back to the fast-path summary; input whose prompt text is below the
50-character minimum resolves to the fast-path summary for every
possible external outcome (the call cannot influence the result); but
a malformed non-throwing response shape resolves to the fixed
placeholder string, not to the fast-path summary. -/
theorem c8_amended :
    ∀ (articles : List Article) (hf : Except String HfResp) (e : String),
      (∃ s, summarizeArticlesWithAI articles hf = .ok s) ∧
      (summarizeArticlesWithAI articles (.error e) =
        .ok (generateFastSummary articles)) ∧
      ((newsTextOf articles).length < 50 →
        summarizeArticlesWithAI articles hf = .ok (generateFastSummary articles)) ∧
      (articles ≠ [] → ¬ (newsTextOf articles).length < 50 →
        summarizeArticlesWithAI articles (.ok .otherResp) =
          .ok "Summary generated successfully.") := by
  intro articles hf e
  by_cases hempty : articles = []
  · subst hempty
    refine ⟨⟨"No recent news articles found for this ticker.", rfl⟩, ?_, ?_, ?_⟩
    · simp [summarizeArticlesWithAI, generateFastSummary]
    · intro _; simp [summarizeArticlesWithAI, generateFastSummary]
    · intro hne _; exact absurd rfl hne
  · by_cases hlen : (newsTextOf articles).length < 50
    · refine ⟨?_, ?_, ?_, ?_⟩
      · exact ⟨generateFastSummary articles, by simp [summarizeArticlesWithAI, hempty, hlen]⟩
      · simp [summarizeArticlesWithAI, hempty, hlen]
      · intro _; simp [summarizeArticlesWithAI, hempty, hlen]
      · intro _ h; exact absurd hlen h
    · refine ⟨?_, ?_, ?_, ?_⟩
      · rcases hf with m | r
        · exact ⟨generateFastSummary articles, by simp [summarizeArticlesWithAI, hempty, hlen]⟩
        · rcases hst : summaryTextOf r with _ | t
          · exact ⟨generateFastSummary articles,
              by simp [summarizeArticlesWithAI, hempty, hlen, hst]⟩
          · by_cases ht : t = ""
            · exact ⟨"Summary generated successfully.",
                by simp [summarizeArticlesWithAI, hempty, hlen, hst, ht]⟩
            · exact ⟨t, by simp [summarizeArticlesWithAI, hempty, hlen, hst, ht]⟩
      · simp [summarizeArticlesWithAI, hempty, hlen]
      · intro h; exact absurd h hlen
      · intro _ _
        simp [summarizeArticlesWithAI, hempty, hlen, summaryTextOf]

/-- C8 amended witness: `c8_amended` at one long article with a
malformed response shape. -/
theorem c8_amended_witness :
    (∃ s, summarizeArticlesWithAI [artLong] (.ok .otherResp) = .ok s) ∧
    (summarizeArticlesWithAI [artLong] (.error "Rate limit reached") =
      .ok (generateFastSummary [artLong])) ∧
    (summarizeArticlesWithAI [artLong] (.ok .otherResp) =
      .ok "Summary generated successfully.") := by
  obtain ⟨h1, h2, h3, h4⟩ := c8_amended [artLong] (.ok .otherResp) "Rate limit reached"
  exact ⟨h1, h2, h4 (by decide) (by decide)⟩

/-- C9: on a request that passes validation and misses the cache, with
the fetch succeeding, a sentiment-scoring failure leaves the
`sentiment` and `metrics` fields absent while the request still
completes with a 200 response carrying the assembled result, and that
result is written to the cache (the write event preceding the
response event); this covers the empty-article case as well. -/
theorem c9_sentiment_degrades :
    ∀ (now : Int) (raw : String) (arts : List Article) (useAI : Bool)
      (hf : Except String HfResp),
      raw ≠ "" → cleanTickerStr raw ≠ "" →
      ∃ r : AnalysisResult,
        r.sentiment = none ∧ r.metrics = none ∧ r.articles = arts ∧
        r.ticker = cleanTickerStr raw ∧
        apiAnalyze now emptyCache (some raw)
            { fetchOutcome := .ok arts, useAISummary := useAI
              hfOutcome := hf, sentStage := .sentFailFirst } =
          (setCachedResult now emptyCache (cleanTickerStr raw) r,
           [.fetchIssued (cleanTickerStr raw),
            .cacheWrite (cleanTickerStr raw) r,
            .respond 200 (.okBody r)]) := by
  intro now raw arts useAI hf hraw hclean
  by_cases hempty : arts = []
  · subst hempty
    refine ⟨{ ticker := cleanTickerStr raw, summary := noNewsSummary (cleanTickerStr raw)
              articles := [], sentiment := none, metrics := none },
            rfl, rfl, rfl, rfl, ?_⟩
    simp [apiAnalyze, hraw, hclean, getCachedResult, emptyCache]
  · refine ⟨{ ticker := cleanTickerStr raw
              summary :=
                if useAI then
                  match summarizeArticlesWithAI arts hf with
                  | .ok s => s
                  | .error _ => generateFastSummary arts
                else generateFastSummary arts
              articles := arts, sentiment := none, metrics := none },
            rfl, rfl, rfl, rfl, ?_⟩
    simp [apiAnalyze, hraw, hclean, getCachedResult, emptyCache, hempty]

/-- C9 witness: `c9_sentiment_degrades` at a concrete request. -/
theorem c9_sentiment_degrades_witness :
    ∃ r : AnalysisResult,
      r.sentiment = none ∧ r.metrics = none ∧ r.articles = [artSent] ∧
      r.ticker = cleanTickerStr "TSLA" ∧
      apiAnalyze 7 emptyCache (some "TSLA")
          { fetchOutcome := .ok [artSent], useAISummary := false
            hfOutcome := .error "unused", sentStage := .sentFailFirst } =
        (setCachedResult 7 emptyCache (cleanTickerStr "TSLA") r,
         [.fetchIssued (cleanTickerStr "TSLA"),
          .cacheWrite (cleanTickerStr "TSLA") r,
          .respond 200 (.okBody r)]) :=
  c9_sentiment_degrades 7 "TSLA" [artSent] false (.error "unused")
    (by decide) (by decide)
